import Mathlib

/-!
Verification development for the dm-bypass repository: a shallow embedding of
the feature-extraction pipeline (zone-specific and composite feature modules),
the possession segmenter, the event normalizer's coordinate derivation, and the
bypass label generator, together with theorems settling the specification
claims about them.

Modelling conventions, used throughout:
* A pandas DataFrame of match events is a `List` of records; a nullable cell
  (NaN) is an `Option` field.  Floats are modelled as `ℚ`.
* A pandas comparison such as `events['x'] < 40` is `false` on a NaN cell,
  mirrored by the `optLtB`/`optLeB`/`optGeB`/`optGtB` helpers.
* Column-level absence matters only for the error-handling claim; there the
  table carries explicit presence flags and functions return `Except`, with
  `Except.error` standing for a raised Python exception.  Elsewhere the
  required columns are assumed present (the normalizer always creates them),
  and functions are total, exactly as the Python bodies are once the columns
  exist.
-/

set_option linter.unusedVariables false

namespace DMBypass

/-- Pandas semantics of `series < c` on one cell: NaN compares `false`. -/
def optLtB (x : Option ℚ) (c : ℚ) : Bool :=
  match x with
  | some v => decide (v < c)
  | none => false

/-- Pandas semantics of `series <= c` on one cell: NaN compares `false`. -/
def optLeB (x : Option ℚ) (c : ℚ) : Bool :=
  match x with
  | some v => decide (v ≤ c)
  | none => false

/-- Pandas semantics of `series >= c` on one cell: NaN compares `false`. -/
def optGeB (x : Option ℚ) (c : ℚ) : Bool :=
  match x with
  | some v => decide (c ≤ v)
  | none => false

/-- Pandas semantics of `series > c` on one cell: NaN compares `false`. -/
def optGtB (x : Option ℚ) (c : ℚ) : Bool :=
  match x with
  | some v => decide (c < v)
  | none => false

/-- NaN-skipping maximum of a column, `series.max()`: `none` when every cell
is null (pandas returns NaN there). -/
def listMaxQ : List ℚ → Option ℚ
  | [] => none
  | v :: rest =>
    match listMaxQ rest with
    | none => some v
    | some m => some (max v m)

/-- NaN-skipping minimum of a column, `series.min()`. -/
def listMinQ : List ℚ → Option ℚ
  | [] => none
  | v :: rest =>
    match listMinQ rest with
    | none => some v
    | some m => some (min v m)

/-- Substring test, modelling `series.str.contains(sub, na=False)` on a
non-null string cell. -/
def strContains (s sub : String) : Bool :=
  decide ((s.splitOn sub).length ≥ 2)

/-- `series.str.contains(sub, na=False)`: null cells give `false`. -/
def optStrContains (x : Option String) (sub : String) : Bool :=
  match x with
  | some s => strContains s sub
  | none => false

/-! ## Normalized event record for the feature extractor library

One row of the normalized event table consumed by `zone_specific.py` and
`composite_features.py`.  Dotted pandas column names such as `possession_team.id`
become underscore field names. -/

structure FEvent where
  type_name : Option String
  team_id : Option ℤ
  possession_team_id : Option ℤ
  possession : ℤ
  x : Option ℚ
  y : Option ℚ
  minute : Option ℚ
  under_pressure : Option Bool
  pass_end_location : Option (List ℚ)
  carry_end_location : Option (List ℚ)
  duel_outcome_name : Option String
  deriving Repr, DecidableEq

/-! ## zone_specific.py -/

/-- `_get_opponent_events`: rows whose `possession_team.id` differs from the
evaluated team (a NaN id also differs, as in pandas `!=`). -/
def getOpponentEvents (events : List FEvent) (team_id : ℤ) : List FEvent :=
  events.filter (fun e => e.possession_team_id ≠ some team_id)

/-- `_get_end_x_from_location`: first coordinate of an end-location list,
`None` for a null or empty value. -/
def getEndXFromLocation : Option (List ℚ) → Option ℚ
  | some (a :: _) => some a
  | _ => none

/-- `compute_defensive_to_midfield_passes_allowed`: opponent passes starting
below x = 40 whose end location reaches x ≥ 40. -/
def compute_defensive_to_midfield_passes_allowed (events : List FEvent)
    (team_id : ℤ) (midfield_x_min midfield_x_max : ℚ) : ℕ :=
  let opponent_passes :=
    (getOpponentEvents events team_id).filter (fun e => e.type_name = some "Pass")
  if opponent_passes.length > 0 then
    let passes_with_end := opponent_passes.filter (fun e => e.pass_end_location.isSome)
    let with_end_x :=
      (passes_with_end.map (fun e => (e, getEndXFromLocation e.pass_end_location))).filter
        (fun p => p.2.isSome)
    (with_end_x.filter (fun p => optLtB p.1.x 40 && optGeB p.2 40)).length
  else 0

/-- `compute_defensive_to_midfield_carries_allowed`: opponent carries starting
below x = 40 whose end location reaches x ≥ 40 (the `carry.end_location`
column is modelled as present). -/
def compute_defensive_to_midfield_carries_allowed (events : List FEvent)
    (team_id : ℤ) (midfield_x_min midfield_x_max : ℚ) : ℕ :=
  let opponent_carries :=
    (getOpponentEvents events team_id).filter (fun e => e.type_name = some "Carry")
  let carries_with_end := opponent_carries.filter (fun e => e.carry_end_location.isSome)
  if carries_with_end.length > 0 then
    let with_end_x :=
      (carries_with_end.map (fun e => (e, getEndXFromLocation e.carry_end_location))).filter
        (fun p => p.2.isSome)
    (with_end_x.filter (fun p => optLtB p.1.x 40 && optGeB p.2 40)).length
  else 0

/-- `compute_defensive_to_midfield_prevention_rate`: interceptions by the
evaluated team in the 38–42 band divided by the transition attempts, `0.0` when
there are no attempts. -/
def compute_defensive_to_midfield_prevention_rate (events : List FEvent)
    (team_id : ℤ) (midfield_x_min midfield_x_max : ℚ) : ℚ :=
  let passes_allowed :=
    compute_defensive_to_midfield_passes_allowed events team_id midfield_x_min midfield_x_max
  let carries_allowed :=
    compute_defensive_to_midfield_carries_allowed events team_id midfield_x_min midfield_x_max
  let total_transition_attempts := passes_allowed + carries_allowed
  if total_transition_attempts > 0 then
    let interceptions_at_entry := events.filter (fun e =>
      e.type_name = some "Interception" && e.team_id = some team_id &&
        optGeB e.x 38 && optLeB e.x 42)
    (interceptions_at_entry.length : ℚ) / (total_transition_attempts : ℚ)
  else 0

/-- `compute_defensive_to_midfield_interception_rate`: same ratio as the
prevention rate, from an identical body in the source. -/
def compute_defensive_to_midfield_interception_rate (events : List FEvent)
    (team_id : ℤ) (midfield_x_min midfield_x_max : ℚ) : ℚ :=
  let passes_allowed :=
    compute_defensive_to_midfield_passes_allowed events team_id midfield_x_min midfield_x_max
  let carries_allowed :=
    compute_defensive_to_midfield_carries_allowed events team_id midfield_x_min midfield_x_max
  let total_transition_attempts := passes_allowed + carries_allowed
  if total_transition_attempts > 0 then
    let interceptions_at_entry := events.filter (fun e =>
      e.type_name = some "Interception" && e.team_id = some team_id &&
        optGeB e.x 38 && optLeB e.x 42)
    (interceptions_at_entry.length : ℚ) / (total_transition_attempts : ℚ)
  else 0

/-- `compute_midfield_to_final_passes_allowed`: opponent passes starting inside
[40, 80] whose end location exceeds x = 80. -/
def compute_midfield_to_final_passes_allowed (events : List FEvent)
    (team_id : ℤ) (midfield_x_min midfield_x_max : ℚ) : ℕ :=
  let opponent_passes :=
    (getOpponentEvents events team_id).filter (fun e => e.type_name = some "Pass")
  if opponent_passes.length > 0 then
    let passes_with_end := opponent_passes.filter (fun e => e.pass_end_location.isSome)
    let with_end_x :=
      (passes_with_end.map (fun e => (e, getEndXFromLocation e.pass_end_location))).filter
        (fun p => p.2.isSome)
    (with_end_x.filter (fun p =>
      optGeB p.1.x 40 && optLeB p.1.x 80 && optGtB p.2 80)).length
  else 0

/-- `compute_midfield_to_final_carries_allowed`: opponent carries starting
inside [40, 80] whose end location exceeds x = 80. -/
def compute_midfield_to_final_carries_allowed (events : List FEvent)
    (team_id : ℤ) (midfield_x_min midfield_x_max : ℚ) : ℕ :=
  let opponent_carries :=
    (getOpponentEvents events team_id).filter (fun e => e.type_name = some "Carry")
  let carries_with_end := opponent_carries.filter (fun e => e.carry_end_location.isSome)
  if carries_with_end.length > 0 then
    let with_end_x :=
      (carries_with_end.map (fun e => (e, getEndXFromLocation e.carry_end_location))).filter
        (fun p => p.2.isSome)
    (with_end_x.filter (fun p =>
      optGeB p.1.x 40 && optLeB p.1.x 80 && optGtB p.2 80)).length
  else 0

/-- `compute_midfield_to_final_prevention_rate`: interceptions in the 78–82
band divided by exit attempts, `0.0` when there are no attempts. -/
def compute_midfield_to_final_prevention_rate (events : List FEvent)
    (team_id : ℤ) (midfield_x_min midfield_x_max : ℚ) : ℚ :=
  let passes_allowed :=
    compute_midfield_to_final_passes_allowed events team_id midfield_x_min midfield_x_max
  let carries_allowed :=
    compute_midfield_to_final_carries_allowed events team_id midfield_x_min midfield_x_max
  let total_exit_attempts := passes_allowed + carries_allowed
  if total_exit_attempts > 0 then
    let interceptions_at_exit := events.filter (fun e =>
      e.type_name = some "Interception" && e.team_id = some team_id &&
        optGeB e.x 78 && optLeB e.x 82)
    (interceptions_at_exit.length : ℚ) / (total_exit_attempts : ℚ)
  else 0

/-- `compute_midfield_to_final_interception_rate`: same ratio as the exit
prevention rate, from an identical body in the source. -/
def compute_midfield_to_final_interception_rate (events : List FEvent)
    (team_id : ℤ) (midfield_x_min midfield_x_max : ℚ) : ℚ :=
  let passes_allowed :=
    compute_midfield_to_final_passes_allowed events team_id midfield_x_min midfield_x_max
  let carries_allowed :=
    compute_midfield_to_final_carries_allowed events team_id midfield_x_min midfield_x_max
  let total_exit_attempts := passes_allowed + carries_allowed
  if total_exit_attempts > 0 then
    let interceptions_at_exit := events.filter (fun e =>
      e.type_name = some "Interception" && e.team_id = some team_id &&
        optGeB e.x 78 && optLeB e.x 82)
    (interceptions_at_exit.length : ℚ) / (total_exit_attempts : ℚ)
  else 0

/-- The distinct possession ids appearing on rows not possessed by the
evaluated team: `events[events.get('possession_team.id') != team_id]['possession'].unique()`. -/
def opponentPossessions (events : List FEvent) (team_id : ℤ) : List ℤ :=
  ((events.filter (fun e => e.possession_team_id ≠ some team_id)).map
    (fun e => e.possession)).dedup

/-- `compute_bypass_attempts_total`: opponent possessions whose first row has
x below 40 and whose maximum x exceeds 80 (NaN-skipping maximum; a NaN start
compares `false`). -/
def compute_bypass_attempts_total (events : List FEvent)
    (team_id : ℤ) (midfield_x_min midfield_x_max : ℚ) : ℕ :=
  (opponentPossessions events team_id).countP (fun poss =>
    let poss_events := events.filter (fun e => e.possession = poss)
    if poss_events.length > 0 then
      let start_x := poss_events.head?.bind (fun e => e.x)
      let max_x := listMaxQ (poss_events.filterMap (fun e => e.x))
      optLtB start_x 40 && optGtB max_x 80
    else false)

/-- `compute_bypass_prevention_rate`: one minus the share of opponent
possessions that bypass midfield, `0.0` when there are no opponent
possessions. -/
def compute_bypass_prevention_rate (events : List FEvent)
    (team_id : ℤ) (midfield_x_min midfield_x_max : ℚ) : ℚ :=
  let bypass_attempts :=
    compute_bypass_attempts_total events team_id midfield_x_min midfield_x_max
  let opponent_possessions := opponentPossessions events team_id
  if opponent_possessions.length > 0 then
    1 - (bypass_attempts : ℚ) / (opponent_possessions.length : ℚ)
  else 0

/-! ## composite_features.py -/

/-- `normalize_feature`: min-max normalization clamped to [0, 1]; missing
bounds mean a divide-by-100 heuristic, equal bounds give 0.5. -/
def normalize_feature (value : ℚ) (min_val max_val : Option ℚ) : ℚ :=
  match min_val, max_val with
  | some mi, some ma =>
    if ma = mi then 1 / 2
    else max 0 (min 1 ((value - mi) / (ma - mi)))
  | _, _ => if value > 0 then min (max (value / 100) 0) 1 else 0

/-- The `other_features` dictionary handed to the composite module: only the
keys the module actually reads, each possibly absent. -/
structure OtherFeatures where
  bypass_attempts_total : Option ℚ
  progressive_passes_allowed_midfield : Option ℚ
  through_balls_allowed_midfield : Option ℚ
  carries_through_midfield : Option ℚ
  deriving Repr, DecidableEq

/-- `compute_midfield_strength_index`: weighted sum of normalized interception
rate, recovery rate, pressure intensity, bypass prevention rate and inverted
compactness. -/
def compute_midfield_strength_index (events : List FEvent) (team_id : ℤ)
    (midfield_x_min midfield_x_max : ℚ) (other_features : OtherFeatures) : ℚ :=
  let midfield_interceptions := events.filter (fun e =>
    e.type_name = some "Interception" && e.team_id = some team_id &&
      optGeB e.x midfield_x_min && optLeB e.x midfield_x_max)
  let opponent_possessions := (opponentPossessions events team_id).length
  let interception_rate : ℚ :=
    if opponent_possessions > 0 then
      (midfield_interceptions.length : ℚ) / (opponent_possessions : ℚ)
    else 0
  let midfield_recoveries := events.filter (fun e =>
    e.type_name = some "Ball Recovery" && e.team_id = some team_id &&
      optGeB e.x midfield_x_min && optLeB e.x midfield_x_max)
  let match_duration_minutes : Option ℚ :=
    if events.length > 0 then listMaxQ (events.filterMap (fun e => e.minute))
    else some 90
  let recovery_rate : ℚ :=
    match match_duration_minutes with
    | some d => if d > 0 then (midfield_recoveries.length : ℚ) / d else 0
    | none => 0
  let opponent_midfield_events := events.filter (fun e =>
    e.possession_team_id ≠ some team_id &&
      optGeB e.x midfield_x_min && optLeB e.x midfield_x_max)
  let pressure_events :=
    opponent_midfield_events.filter (fun e => e.under_pressure.getD false)
  let pressure_intensity : ℚ :=
    if opponent_midfield_events.length > 0 then
      (pressure_events.length : ℚ) / (opponent_midfield_events.length : ℚ) * 100
    else 0
  let bypass_attempts : ℚ := other_features.bypass_attempts_total.getD 0
  let bypass_prevention_rate : ℚ :=
    if opponent_possessions > 0 then
      1 - bypass_attempts / (opponent_possessions : ℚ)
    else 1
  let defensive_events := events.filter (fun e =>
    e.team_id = some team_id &&
      optGeB e.x midfield_x_min && optLeB e.x midfield_x_max && e.y.isSome)
  let compactness_index : ℚ :=
    if defensive_events.length > 0 then
      let width := (listMaxQ (defensive_events.filterMap (fun e => e.y))).getD 0 -
        (listMinQ (defensive_events.filterMap (fun e => e.y))).getD 0
      let depth := (listMaxQ (defensive_events.filterMap (fun e => e.x))).getD 0 -
        (listMinQ (defensive_events.filterMap (fun e => e.x))).getD 0
      if depth > 0 then width / depth else 1
    else 1
  let norm_interception := normalize_feature interception_rate (some 0) (some 1)
  let norm_recovery := normalize_feature recovery_rate (some 0) (some 5)
  let norm_pressure := normalize_feature pressure_intensity (some 0) (some 100)
  let norm_bypass := bypass_prevention_rate
  let norm_compactness := 1 - normalize_feature compactness_index (some 0) (some 2)
  (0.25 : ℚ) * norm_interception + (0.25 : ℚ) * norm_recovery +
    (0.20 : ℚ) * norm_pressure + (0.20 : ℚ) * norm_bypass +
    (0.10 : ℚ) * norm_compactness

/-- `compute_bypass_risk_score`: dangerous actions per opponent possession,
normalized against the range [0, 10]. -/
def compute_bypass_risk_score (events : List FEvent) (team_id : ℤ)
    (midfield_x_min midfield_x_max : ℚ) (other_features : OtherFeatures) : ℚ :=
  let opponent_possessions := (opponentPossessions events team_id).length
  let progressive_passes_allowed :=
    other_features.progressive_passes_allowed_midfield.getD 0
  let through_balls_allowed := other_features.through_balls_allowed_midfield.getD 0
  let carries_through := other_features.carries_through_midfield.getD 0
  let total_dangerous_actions :=
    progressive_passes_allowed + through_balls_allowed + carries_through
  let risk_score : ℚ :=
    if opponent_possessions > 0 then
      total_dangerous_actions / (opponent_possessions : ℚ)
    else 0
  normalize_feature risk_score (some 0) (some 10)

/-- `compute_defensive_action_efficiency`: successful defensive actions per
hundred opponent events in the zone, `0.0` when the opponent has no events in
the zone. -/
def compute_defensive_action_efficiency (events : List FEvent) (team_id : ℤ)
    (midfield_x_min midfield_x_max : ℚ) : ℚ :=
  let midfield_interceptions := events.filter (fun e =>
    e.type_name = some "Interception" && e.team_id = some team_id &&
      optGeB e.x midfield_x_min && optLeB e.x midfield_x_max)
  let midfield_recoveries := events.filter (fun e =>
    e.type_name = some "Ball Recovery" && e.team_id = some team_id &&
      optGeB e.x midfield_x_min && optLeB e.x midfield_x_max)
  let midfield_duels_won := events.filter (fun e =>
    e.team_id = some team_id && e.type_name = some "Duel" &&
      optStrContains e.duel_outcome_name "Won" &&
      optGeB e.x midfield_x_min && optLeB e.x midfield_x_max)
  let successful_defensive_actions :=
    midfield_interceptions.length + midfield_recoveries.length + midfield_duels_won.length
  let opponent_midfield_events := events.filter (fun e =>
    e.possession_team_id ≠ some team_id &&
      optGeB e.x midfield_x_min && optLeB e.x midfield_x_max)
  if opponent_midfield_events.length > 0 then
    (successful_defensive_actions : ℚ) / (opponent_midfield_events.length : ℚ) * 100
  else 0

/-- `compute_pressure_to_interception_ratio`: zone interceptions per opponent
under-pressure zone event, `0.0` when there are no pressure events. -/
def compute_pressure_to_interception_ratio (events : List FEvent) (team_id : ℤ)
    (midfield_x_min midfield_x_max : ℚ) : ℚ :=
  let midfield_interceptions := events.filter (fun e =>
    e.type_name = some "Interception" && e.team_id = some team_id &&
      optGeB e.x midfield_x_min && optLeB e.x midfield_x_max)
  let opponent_midfield_events := events.filter (fun e =>
    e.possession_team_id ≠ some team_id &&
      optGeB e.x midfield_x_min && optLeB e.x midfield_x_max)
  let pressure_events :=
    opponent_midfield_events.filter (fun e => e.under_pressure.getD false)
  if pressure_events.length > 0 then
    (midfield_interceptions.length : ℚ) / (pressure_events.length : ℚ)
  else 0

/-- `compute_recovery_quality_score`: mean x of the evaluated team's zone
recoveries, `None` when there are none. -/
def compute_recovery_quality_score (events : List FEvent) (team_id : ℤ)
    (midfield_x_min midfield_x_max : ℚ) : Option ℚ :=
  let midfield_recoveries := events.filter (fun e =>
    e.type_name = some "Ball Recovery" && e.team_id = some team_id &&
      optGeB e.x midfield_x_min && optLeB e.x midfield_x_max)
  if midfield_recoveries.length > 0 then
    let xs := midfield_recoveries.filterMap (fun e => e.x)
    some (xs.sum / (xs.length : ℚ))
  else none

/-! ## ingest/load_sb.py and features/main_feature.py: location → x, y

`clean_columns` / `clean_events` derive the x and y coordinate columns from the
raw `location` cell.  A cell is `none` for NaN or any non-list value (the
`isinstance(v, list)` guard treats them alike). -/

/-- The x lambda: `v[0] if isinstance(v, list) and len(v) > 0 else None`. -/
def locX : Option (List ℚ) → Option ℚ
  | some (a :: _) => some a
  | _ => none

/-- The y lambda: `v[1] if isinstance(v, list) and len(v) > 1 else None`. -/
def locY : Option (List ℚ) → Option ℚ
  | some (_ :: b :: _) => some b
  | _ => none

/-- Derivation of the (x, y) columns: when the `location` column itself is
absent (`df.get("location")` returns `None`), both columns are all-null. -/
def cleanXY (hasLocation : Bool) (locations : List (Option (List ℚ))) :
    List (Option ℚ × Option ℚ) :=
  if hasLocation then locations.map (fun v => (locX v, locY v))
  else locations.map (fun _ => (none, none))

/-! ## possessions/build_possessions.py

One row of the event table as `build_possessions` sees it.  The
`match_id`, `period` and `timestamp` columns are modelled as total (the
normalizer always fills them); `possession_team_name`, the coordinates and
`type_name` keep their pandas nullability, which the segmenter is sensitive
to.  Timestamps are elapsed seconds. -/

structure PossEvent where
  match_id : ℤ
  period : ℤ
  timestamp : ℚ
  possession_team_name : Option String
  x : Option ℚ
  y : Option ℚ
  type_name : Option String
  deriving Repr, DecidableEq

/-- Strict lexicographic order on the sort key `(match_id, period, timestamp)`
of `events.sort_values(["match_id", "period", "timestamp"])`. -/
def eventKeyLt (a b : PossEvent) : Bool :=
  decide (a.match_id < b.match_id) ||
    (decide (a.match_id = b.match_id) && (decide (a.period < b.period) ||
      (decide (a.period = b.period) && decide (a.timestamp < b.timestamp))))

/-- Stable insertion of one event into an already sorted run: an event is
placed after every event strictly smaller, and before key-equal events only
when it preceded them in the input, which keeps the sort stable. -/
def insertByKey (e : PossEvent) : List PossEvent → List PossEvent
  | [] => [e]
  | f :: rest => if eventKeyLt f e then f :: insertByKey e rest else e :: f :: rest

/-- Stable sort by `(match_id, period, timestamp)`. -/
def sortEvents (events : List PossEvent) : List PossEvent :=
  events.foldr insertByKey []

/-- Pandas `!=` between two nullable string cells: NaN differs from
everything, NaN included. -/
def pandasNeStr (a b : Option String) : Bool :=
  a.isNone || b.isNone || decide (a ≠ b)

/-- The `possession_change` / `cumsum` pass: each sorted row is tagged with its
possession id, starting at 1 on the first row and incrementing whenever the
possession team differs from the previous row (pandas `!=`, so a null team
always starts a new possession) or the period differs. -/
def tagPossIds : List PossEvent → Option (PossEvent × ℕ) → List (PossEvent × ℕ)
  | [], _ => []
  | e :: rest, none => (e, 1) :: tagPossIds rest (some (e, 1))
  | e :: rest, some (p, i) =>
    let i' := if pandasNeStr e.possession_team_name p.possession_team_name ||
        decide (e.period ≠ p.period) then i + 1 else i
    (e, i') :: tagPossIds rest (some (e, i'))

/-- A `groupby(["match_id", "poss_id", possession_team_name])` key.  Rows with
a null possession team have no key: pandas drops them from the groupby. -/
structure SegKey where
  match_id : ℤ
  poss_id : ℕ
  team_name : String
  deriving Repr, DecidableEq

/-- The groupby key of a tagged row, `none` when the possession team is null. -/
def segKeyOf (te : PossEvent × ℕ) : Option SegKey :=
  te.1.possession_team_name.map (fun t => ⟨te.1.match_id, te.2, t⟩)

/-- One output row of `build_possessions`. -/
structure PossRow where
  match_id : ℤ
  poss_id : ℕ
  team_name : String
  start_time : ℚ
  end_time : ℚ
  start_x : Option ℚ
  start_y : Option ℚ
  end_x : Option ℚ
  end_y : Option ℚ
  n_events : ℕ
  deriving Repr, DecidableEq

/-- The rows of one groupby group, in sorted-table order: the tagged rows
whose key matches. -/
def groupRowsOf (events : List PossEvent) (k : SegKey) : List PossEvent :=
  ((tagPossIds (sortEvents events) none).filter
    (fun te => segKeyOf te = some k)).map Prod.fst

/-- The named aggregations of one group: `min`/`max` of the timestamp,
`first`/`last` of the coordinates — pandas `GroupBy.first`/`GroupBy.last`
return the first and last NON-NULL value of the column, or NaN when the group
has none — and `count` of `type_name`, which counts non-null cells. -/
def aggregateGroup (k : SegKey) (rows : List PossEvent) : PossRow :=
  { match_id := k.match_id
    poss_id := k.poss_id
    team_name := k.team_name
    start_time := (listMinQ (rows.map (fun e => e.timestamp))).getD 0
    end_time := (listMaxQ (rows.map (fun e => e.timestamp))).getD 0
    start_x := (rows.filterMap (fun e => e.x)).head?
    start_y := (rows.filterMap (fun e => e.y)).head?
    end_x := (rows.filterMap (fun e => e.x)).getLast?
    end_y := (rows.filterMap (fun e => e.y)).getLast?
    n_events := (rows.filterMap (fun e => e.type_name)).length }

/-- `build_possessions`: sort, tag possession ids, then aggregate one row per
distinct `(match_id, poss_id, team)` key (the required-column check of the
source is a precondition and is modelled away: all seven columns exist). -/
def build_possessions (events : List PossEvent) : List PossRow :=
  (((tagPossIds (sortEvents events) none).filterMap segKeyOf).dedup).map
    (fun k => aggregateGroup k (groupRowsOf events k))

/-! ## label/make_labels.py -/

/-- One row of the event table as `label_bypass` sees it (this script reads a
table with `type` and `possession_team` columns; the `possession` id column is
present in the data but never read by `label_bypass`). -/
structure LabelEvent where
  match_id : ℤ
  period : ℤ
  timestamp : ℚ
  type : Option String
  possession_team : Option ℤ
  possession : ℤ
  x : Option ℚ
  deriving Repr, DecidableEq

/-- One row of the possession table: the three grouping columns that
`label_bypass` reads. -/
structure PossessionRow where
  match_id : ℤ
  poss_id : ℤ
  team_id : ℤ
  deriving Repr, DecidableEq

/-- The labels configuration: time budget in seconds, pass-count budget, and
final-third x threshold. -/
structure LabelCfg where
  time_seconds : ℚ
  max_passes : ℕ
  final_third_x : ℚ
  deriving Repr, DecidableEq

/-- One output row of `label_bypass`. -/
structure LabelRow where
  match_id : ℤ
  poss_id : ℤ
  team_id : ℤ
  bypass : ℕ
  deriving Repr, DecidableEq

/-- Sort key order for the label script, `(match_id, period, timestamp)`. -/
def labelKeyLt (a b : LabelEvent) : Bool :=
  decide (a.match_id < b.match_id) ||
    (decide (a.match_id = b.match_id) && (decide (a.period < b.period) ||
      (decide (a.period = b.period) && decide (a.timestamp < b.timestamp))))

/-- Stable insertion for the label script sort. -/
def labelInsert (e : LabelEvent) : List LabelEvent → List LabelEvent
  | [] => [e]
  | f :: rest => if labelKeyLt f e then f :: labelInsert e rest else e :: f :: rest

/-- Stable sort of the label script event table. -/
def sortLabelEvents (events : List LabelEvent) : List LabelEvent :=
  events.foldr labelInsert []

/-- Walk of the `window` rows carrying the running `is_pass` cumulative sum:
`true` when some row has x at or beyond the threshold while the pass count so
far (current row included) is within budget. -/
def anyReachedWithin (window : List LabelEvent) (final_x : ℚ) (max_passes : ℕ)
    (c : ℕ) : Bool :=
  match window with
  | [] => false
  | e :: rest =>
    let c' := c + (if e.type = some "Pass" then 1 else 0)
    (optGeB e.x final_x && decide (c' ≤ max_passes)) ||
      anyReachedWithin rest final_x max_passes c'

/-- Lexicographic order on possession-group keys (pandas groupby sorts its
keys). -/
def possKeyLt (a b : PossessionRow) : Bool :=
  decide (a.match_id < b.match_id) ||
    (decide (a.match_id = b.match_id) && (decide (a.poss_id < b.poss_id) ||
      (decide (a.poss_id = b.poss_id) && decide (a.team_id < b.team_id))))

/-- Stable insertion for possession-group keys. -/
def possKeyInsert (k : PossessionRow) : List PossessionRow → List PossessionRow
  | [] => [k]
  | f :: rest => if possKeyLt f k then f :: possKeyInsert k rest else k :: f :: rest

/-- The distinct possession-group keys in sorted order. -/
def possGroupKeys (possessions : List PossessionRow) : List PossessionRow :=
  possessions.dedup.foldr possKeyInsert []

/-- `label_bypass`: for each `(match_id, poss_id, team_id)` group of the
possession table, take ALL sorted events of that match whose
`possession_team` equals the team id (the source does not filter by the
possession id, despite its inline comment), label 0 when there are none, and
otherwise label 1 exactly when a row within `time_seconds` of the subset's
earliest timestamp reaches `final_third_x` with the running pass count within
`max_passes`. -/
def label_bypass (events : List LabelEvent) (possessions : List PossessionRow)
    (cfg : LabelCfg) : List LabelRow :=
  let ev := sortLabelEvents events
  (possGroupKeys possessions).map (fun k =>
    let seg := ev.filter (fun e =>
      e.match_id = k.match_id && e.possession_team = some k.team_id)
    if seg.isEmpty then
      { match_id := k.match_id, poss_id := k.poss_id, team_id := k.team_id, bypass := 0 }
    else
      let t0 := (listMinQ (seg.map (fun e => e.timestamp))).getD 0
      let window := seg.filter (fun e => e.timestamp ≤ t0 + cfg.time_seconds)
      let reached := anyReachedWithin window cfg.final_third_x cfg.max_passes 0
      { match_id := k.match_id, poss_id := k.poss_id, team_id := k.team_id,
        bypass := if reached then 1 else 0 })

/-! ## Schema-aware versions for the error-handling contract

For the error-handling claim the duck-typed frame is modelled explicitly: a
table is a row list plus a presence flag per optional column, and the two
cited extractor functions return `Except`, where `Except.error` is a raised
pandas exception.  The pandas behaviours embedded:
* bracket access `df[col]` on an absent column raises `KeyError`;
* indexing a frame by a boolean mask built from `df.get(col, pd.Series())`
  with `col` absent raises an alignment `IndexingError` unless the frame is
  empty (the empty mask only aligns with an empty frame);
* a `df.get(col, pd.Series())` comparison used INSIDE an `&` conjunction with
  column `col` absent aligns to all-`False`, so the row test fails instead of
  raising. -/

structure Table where
  rows : List FEvent
  hasPossessionTeamId : Bool
  hasTypeName : Bool
  hasTeamId : Bool
  hasX : Bool
  hasPassEndLocation : Bool
  hasDuelOutcome : Bool
  deriving Repr, DecidableEq

/-- Indexing `rows` by a standalone boolean mask built from
`df.get(col, pd.Series())`: with the column present this filters; with it
absent the empty mask raises unless the frame is empty. -/
def maskGet (present : Bool) (rows : List FEvent) (p : FEvent → Bool) :
    Except String (List FEvent) :=
  if present then Except.ok (rows.filter p)
  else if rows.isEmpty then Except.ok [] else Except.error "IndexingError"

namespace Frame

/-- Schema-aware `compute_defensive_to_midfield_passes_allowed`: raises on an
absent `type_name` or `x` column (bracket access) and on an absent
`pass.end_location` column when opponent passes exist (mask alignment);
otherwise counts as the column-present version does. -/
def compute_defensive_to_midfield_passes_allowed (t : Table) (team_id : ℤ)
    (midfield_x_min midfield_x_max : ℚ) : Except String ℕ :=
  match maskGet t.hasPossessionTeamId t.rows
      (fun e => e.possession_team_id ≠ some team_id) with
  | Except.error msg => Except.error msg
  | Except.ok opponent_events =>
    if t.hasTypeName = false then Except.error "KeyError: type_name" else
    let opponent_passes := opponent_events.filter (fun e => e.type_name = some "Pass")
    if opponent_passes.length > 0 then
      match maskGet t.hasPassEndLocation opponent_passes
          (fun e => e.pass_end_location.isSome) with
      | Except.error msg => Except.error msg
      | Except.ok passes_with_end =>
        let with_end_x :=
          (passes_with_end.map (fun e => (e, getEndXFromLocation e.pass_end_location))).filter
            (fun p => p.2.isSome)
        if t.hasX = false then Except.error "KeyError: x" else
        Except.ok (with_end_x.filter (fun p => optLtB p.1.x 40 && optGeB p.2 40)).length
    else Except.ok 0

/-- Schema-aware `compute_defensive_action_efficiency`: raises on an absent
`type_name` or `x` column (bracket access, in source order); the columns read
through `df.get` inside `&` conjunctions (`team.id`, `possession_team.id`,
`duel.outcome.name`) align to all-`False` when absent instead of raising. -/
def compute_defensive_action_efficiency (t : Table) (team_id : ℤ)
    (midfield_x_min midfield_x_max : ℚ) : Except String ℚ :=
  if t.hasTypeName = false then Except.error "KeyError: type_name"
  else if t.hasX = false then Except.error "KeyError: x"
  else
    let midfield_interceptions := t.rows.filter (fun e =>
      e.type_name = some "Interception" && (t.hasTeamId && e.team_id = some team_id) &&
        optGeB e.x midfield_x_min && optLeB e.x midfield_x_max)
    let midfield_recoveries := t.rows.filter (fun e =>
      e.type_name = some "Ball Recovery" && (t.hasTeamId && e.team_id = some team_id) &&
        optGeB e.x midfield_x_min && optLeB e.x midfield_x_max)
    let midfield_duels_won := t.rows.filter (fun e =>
      (t.hasTeamId && e.team_id = some team_id) && e.type_name = some "Duel" &&
        (t.hasDuelOutcome && optStrContains e.duel_outcome_name "Won") &&
        optGeB e.x midfield_x_min && optLeB e.x midfield_x_max)
    let successful_defensive_actions :=
      midfield_interceptions.length + midfield_recoveries.length + midfield_duels_won.length
    let opponent_midfield_events := t.rows.filter (fun e =>
      (t.hasPossessionTeamId && e.possession_team_id ≠ some team_id) &&
        optGeB e.x midfield_x_min && optLeB e.x midfield_x_max)
    if opponent_midfield_events.length > 0 then
      Except.ok ((successful_defensive_actions : ℚ) /
        (opponent_midfield_events.length : ℚ) * 100)
    else Except.ok 0

end Frame

/-- C10: each prevention-rate feature equals its companion interception-rate
feature as a function of the event table, the team id and the zone bounds
(the source bodies are token-for-token identical). -/
theorem prevention_rate_eq_interception_rate :
    ∀ (events : List FEvent) (team_id : ℤ) (midfield_x_min midfield_x_max : ℚ),
      compute_defensive_to_midfield_prevention_rate events team_id
          midfield_x_min midfield_x_max =
        compute_defensive_to_midfield_interception_rate events team_id
          midfield_x_min midfield_x_max ∧
      compute_midfield_to_final_prevention_rate events team_id
          midfield_x_min midfield_x_max =
        compute_midfield_to_final_interception_rate events team_id
          midfield_x_min midfield_x_max := by
  intro events team_id midfield_x_min midfield_x_max
  exact ⟨rfl, rfl⟩

/-! ## Claim C8: location → x, y derivation -/

/-- C8 (counterexample): the one-element location array `[5]` is not a
two-element array, yet the normalizer derives `x = 5` from it rather than
yielding null for both coordinates, so the claim fails as stated. -/
theorem location_malformed_counterexample :
    [(5 : ℚ)].length ≠ 2 ∧ locX (some [(5 : ℚ)]) = some 5 ∧
      locY (some [(5 : ℚ)]) = none := by
  exact ⟨by decide, rfl, rfl⟩

/-- C8 (amended): the normalizer derives x from the first element of any
non-empty location array and y from the second element of any array with at
least two elements; an absent or non-list location or an empty array yields
null for both, a one-element array yields its element as x and null y, and an
absent location column yields null for both on every row.  The derivation is a
total function, so it never raises. -/
theorem location_to_xy_amended :
    (∀ (a b : ℚ) (rest : List ℚ),
      locX (some (a :: b :: rest)) = some a ∧ locY (some (a :: b :: rest)) = some b) ∧
    (locX none = none ∧ locY none = none) ∧
    (locX (some []) = none ∧ locY (some []) = none) ∧
    (∀ a : ℚ, locX (some [a]) = some a ∧ locY (some [a]) = none) ∧
    (∀ locations : List (Option (List ℚ)),
      cleanXY false locations = locations.map (fun _ => (none, none))) := by
  refine ⟨fun a b rest => ⟨rfl, rfl⟩, ⟨rfl, rfl⟩, ⟨rfl, rfl⟩,
    fun a => ⟨rfl, rfl⟩, fun locations => rfl⟩

/-! ## Claim C3: 0.0 for zero denominators, null for empty samples -/

/-- C3: on any event table with no opponent rows (every rate denominator —
transition attempts, opponent possession count, opponent zone events, pressure
events — is then zero) and no Ball Recovery rows (the mean-location sample is
then empty), every rate-typed feature of the zone-specific and composite
modules evaluates to 0.0, while the mean-typed recovery quality score
evaluates to null, not 0.0. -/
theorem rate_zero_mean_null_defaults :
    ∀ (events : List FEvent) (team_id : ℤ) (midfield_x_min midfield_x_max : ℚ)
      (other_features : OtherFeatures),
      (∀ e ∈ events, e.possession_team_id = some team_id) →
      (∀ e ∈ events, e.type_name ≠ some "Ball Recovery") →
      compute_defensive_to_midfield_prevention_rate events team_id
        midfield_x_min midfield_x_max = 0 ∧
      compute_defensive_to_midfield_interception_rate events team_id
        midfield_x_min midfield_x_max = 0 ∧
      compute_midfield_to_final_prevention_rate events team_id
        midfield_x_min midfield_x_max = 0 ∧
      compute_midfield_to_final_interception_rate events team_id
        midfield_x_min midfield_x_max = 0 ∧
      compute_bypass_prevention_rate events team_id
        midfield_x_min midfield_x_max = 0 ∧
      compute_bypass_risk_score events team_id
        midfield_x_min midfield_x_max other_features = 0 ∧
      compute_defensive_action_efficiency events team_id
        midfield_x_min midfield_x_max = 0 ∧
      compute_pressure_to_interception_ratio events team_id
        midfield_x_min midfield_x_max = 0 ∧
      compute_recovery_quality_score events team_id
        midfield_x_min midfield_x_max = none := by
  intro events team_id midfield_x_min midfield_x_max other_features h1 h2
  have hFilter : events.filter (fun e => e.possession_team_id ≠ some team_id) = [] :=
    List.filter_eq_nil_iff.2 (fun e he => by simp [h1 e he])
  have hOpp : getOpponentEvents events team_id = [] := by
    simpa [getOpponentEvents] using hFilter
  have hPassesDM : compute_defensive_to_midfield_passes_allowed events team_id
      midfield_x_min midfield_x_max = 0 := by
    simp [compute_defensive_to_midfield_passes_allowed, hOpp]
  have hCarriesDM : compute_defensive_to_midfield_carries_allowed events team_id
      midfield_x_min midfield_x_max = 0 := by
    simp [compute_defensive_to_midfield_carries_allowed, hOpp]
  have hPassesMF : compute_midfield_to_final_passes_allowed events team_id
      midfield_x_min midfield_x_max = 0 := by
    simp [compute_midfield_to_final_passes_allowed, hOpp]
  have hCarriesMF : compute_midfield_to_final_carries_allowed events team_id
      midfield_x_min midfield_x_max = 0 := by
    simp [compute_midfield_to_final_carries_allowed, hOpp]
  have hMid : events.filter (fun e => e.possession_team_id ≠ some team_id &&
      optGeB e.x midfield_x_min && optLeB e.x midfield_x_max) = [] :=
    List.filter_eq_nil_iff.2 (fun e he => by simp [h1 e he])
  have hRec : events.filter (fun e => e.type_name = some "Ball Recovery" &&
      e.team_id = some team_id &&
      optGeB e.x midfield_x_min && optLeB e.x midfield_x_max) = [] :=
    List.filter_eq_nil_iff.2 (fun e he => by simp [h2 e he])
  refine ⟨?_, ?_, ?_, ?_, ?_, ?_, ?_, ?_, ?_⟩
  · simp [compute_defensive_to_midfield_prevention_rate, hPassesDM, hCarriesDM]
  · simp [compute_defensive_to_midfield_interception_rate, hPassesDM, hCarriesDM]
  · simp [compute_midfield_to_final_prevention_rate, hPassesMF, hCarriesMF]
  · simp [compute_midfield_to_final_interception_rate, hPassesMF, hCarriesMF]
  · unfold compute_bypass_prevention_rate opponentPossessions
    rw [hFilter]
    simp
  · unfold compute_bypass_risk_score opponentPossessions
    rw [hFilter]
    simp [normalize_feature]
  · unfold compute_defensive_action_efficiency
    rw [hMid]
    simp
  · unfold compute_pressure_to_interception_ratio
    rw [hMid]
    simp
  · unfold compute_recovery_quality_score
    rw [hRec]
    simp

/-- A sample event of the evaluated team itself, used to instantiate the C3
hypotheses at a concrete non-empty table. -/
def c3Event : FEvent :=
  ⟨some "Pass", some 217, some 217, 1, some 50, some 40, some 10, some false,
    none, none, none⟩

/-- C3 (witness): the defaults theorem applied to a concrete one-row table
whose only event belongs to the evaluated team. -/
theorem rate_zero_mean_null_defaults_witness :
    compute_defensive_to_midfield_prevention_rate [c3Event] 217 40 80 = 0 ∧
    compute_defensive_to_midfield_interception_rate [c3Event] 217 40 80 = 0 ∧
    compute_midfield_to_final_prevention_rate [c3Event] 217 40 80 = 0 ∧
    compute_midfield_to_final_interception_rate [c3Event] 217 40 80 = 0 ∧
    compute_bypass_prevention_rate [c3Event] 217 40 80 = 0 ∧
    compute_bypass_risk_score [c3Event] 217 40 80 ⟨none, none, none, none⟩ = 0 ∧
    compute_defensive_action_efficiency [c3Event] 217 40 80 = 0 ∧
    compute_pressure_to_interception_ratio [c3Event] 217 40 80 = 0 ∧
    compute_recovery_quality_score [c3Event] 217 40 80 = none :=
  rate_zero_mean_null_defaults [c3Event] 217 40 80 ⟨none, none, none, none⟩
    (by decide) (by decide)

/-! ## Claim C4: the bypass label generator -/

/-- Two events of the same opponent team (team 2) in match 1: the first
belongs to possession 1 and reaches x = 100, the second belongs to possession
2, lies half a second later, and only reaches x = 10. -/
def c4Events : List LabelEvent :=
  [⟨1, 1, 0, some "Pass", some 2, 1, some 100⟩,
   ⟨1, 1, 1 / 2, some "Pass", some 2, 2, some 10⟩]

/-- The two possessions of team 2 in match 1. -/
def c4Possessions : List PossessionRow := [⟨1, 1, 2⟩, ⟨1, 2, 2⟩]

/-- A configuration with a 10-second budget, 5-pass budget and final-third
threshold x = 80. -/
def c4Cfg : LabelCfg := ⟨10, 5, 80⟩

/-- C4: `label_bypass` labels possession 2 with `bypass = 1` even though no
event of possession 2 ever reaches the x = 80 threshold (its only event stays
at x = 10): the loop selects every event of the match/team pair instead of
the events of the possession being labelled, so the window is measured from
the team's first event of the match, not from the possession's own first
event, contradicting the per-possession contract. -/
theorem label_bypass_ignores_possession_id :
    label_bypass c4Events c4Possessions c4Cfg =
      [⟨1, 1, 2, 1⟩, ⟨1, 2, 2, 1⟩] ∧
    (c4Events.filter (fun e => e.possession = 2)).map (fun e => e.x) =
      [some 10] := by
  exact ⟨by with_unfolding_all decide, by with_unfolding_all decide⟩

/-! ## Claim C1: error handling of the extractor functions -/

/-- An opponent pass row used by the error-handling counterexample. -/
def c1OppPass : FEvent :=
  ⟨some "Pass", some 999, some 999, 1, some 10, some 10, some 1, some false,
    some [50, 40], none, none⟩

/-- A non-empty table whose `type_name` column is absent. -/
def c1BadTable : Table :=
  { rows := [c1OppPass], hasPossessionTeamId := true, hasTypeName := false,
    hasTeamId := true, hasX := true, hasPassEndLocation := true,
    hasDuelOutcome := true }

/-- C1 (counterexample): on a non-empty table missing the prerequisite
`type_name` column, `compute_defensive_to_midfield_passes_allowed` raises a
`KeyError` instead of returning the documented default 0, so the never-raise
claim fails as stated. -/
theorem extractor_missing_column_counterexample :
    Frame.compute_defensive_to_midfield_passes_allowed c1BadTable 217 40 80 =
      Except.error "KeyError: type_name" := by
  rfl

/-- C1 (amended): with every prerequisite column present the two cited
extractor functions never raise; moreover they return the documented default 0
whenever the filtered subset is empty because the table has no opponent rows,
and likewise when every event is missing its x coordinate (location-less
events are excluded by the zone filters).  Only an absent prerequisite column
on a non-empty table makes them raise. -/
theorem extractor_defaults_amended :
    ∀ (t : Table) (team_id : ℤ) (midfield_x_min midfield_x_max : ℚ),
      (t.hasPossessionTeamId = true → t.hasTypeName = true → t.hasX = true →
        t.hasPassEndLocation = true →
        (∃ n, Frame.compute_defensive_to_midfield_passes_allowed t team_id
          midfield_x_min midfield_x_max = Except.ok n) ∧
        (∃ q, Frame.compute_defensive_action_efficiency t team_id
          midfield_x_min midfield_x_max = Except.ok q)) ∧
      ((∀ e ∈ t.rows, e.possession_team_id = some team_id) →
        t.hasPossessionTeamId = true → t.hasTypeName = true → t.hasX = true →
        Frame.compute_defensive_to_midfield_passes_allowed t team_id
          midfield_x_min midfield_x_max = Except.ok 0 ∧
        Frame.compute_defensive_action_efficiency t team_id
          midfield_x_min midfield_x_max = Except.ok 0) ∧
      ((∀ e ∈ t.rows, e.x = none) →
        t.hasPossessionTeamId = true → t.hasTypeName = true → t.hasX = true →
        t.hasPassEndLocation = true →
        Frame.compute_defensive_to_midfield_passes_allowed t team_id
          midfield_x_min midfield_x_max = Except.ok 0 ∧
        Frame.compute_defensive_action_efficiency t team_id
          midfield_x_min midfield_x_max = Except.ok 0) := by
  intro t team_id midfield_x_min midfield_x_max
  refine ⟨fun h1 h2 h3 h4 => ⟨?_, ?_⟩, fun hall h1 h2 h3 => ⟨?_, ?_⟩,
    fun hx h1 h2 h3 h4 => ⟨?_, ?_⟩⟩
  · unfold Frame.compute_defensive_to_midfield_passes_allowed maskGet
    rw [h1, h2, h3, h4]
    simp only [reduceIte, Bool.true_eq_false]
    split
    · exact ⟨_, rfl⟩
    · exact ⟨_, rfl⟩
  · unfold Frame.compute_defensive_action_efficiency
    rw [h2, h3]
    simp only [reduceIte, Bool.true_eq_false]
    split
    · exact ⟨_, rfl⟩
    · exact ⟨_, rfl⟩
  · have hFilter : t.rows.filter (fun e => e.possession_team_id ≠ some team_id) = [] :=
      List.filter_eq_nil_iff.2 (fun e he => by simp [hall e he])
    unfold Frame.compute_defensive_to_midfield_passes_allowed maskGet
    rw [h1, h2, hFilter]
    simp
  · have hMid : t.rows.filter (fun e =>
        (t.hasPossessionTeamId && e.possession_team_id ≠ some team_id) &&
        optGeB e.x midfield_x_min && optLeB e.x midfield_x_max) = [] :=
      List.filter_eq_nil_iff.2 (fun e he => by simp [hall e he])
    unfold Frame.compute_defensive_action_efficiency
    rw [h2, h3, hMid]
    simp
  · unfold Frame.compute_defensive_to_midfield_passes_allowed maskGet
    rw [h1, h2, h3, h4]
    simp only [reduceIte, Bool.true_eq_false]
    split
    · refine congrArg Except.ok ?_
      rw [List.length_eq_zero, List.filter_eq_nil_iff]
      intro p hp
      have hp1 := List.mem_of_mem_filter hp
      obtain ⟨e, he, rfl⟩ := List.mem_map.1 hp1
      have hex : e ∈ t.rows :=
        List.mem_of_mem_filter (List.mem_of_mem_filter (List.mem_of_mem_filter he))
      simp [hx e hex, optLtB]
    · rfl
  · have hMid : t.rows.filter (fun e =>
        (t.hasPossessionTeamId && e.possession_team_id ≠ some team_id) &&
        optGeB e.x midfield_x_min && optLeB e.x midfield_x_max) = [] :=
      List.filter_eq_nil_iff.2 (fun e he => by simp [hx e he, optGeB])
    unfold Frame.compute_defensive_action_efficiency
    rw [h2, h3, hMid]
    simp

/-- A one-row table of the evaluated team with a null x coordinate and every
column present, instantiating both default cases of the amended claim. -/
def c1GoodTable : Table :=
  { rows := [⟨some "Pass", some 217, some 217, 1, none, none, none, none,
      none, none, none⟩],
    hasPossessionTeamId := true, hasTypeName := true, hasTeamId := true,
    hasX := true, hasPassEndLocation := true, hasDuelOutcome := true }

/-- C1 (witness): the amended theorem applied to a concrete table with all
columns present: no raise, and the default 0 on the empty filtered subsets. -/
theorem extractor_defaults_amended_witness :
    (∃ n, Frame.compute_defensive_to_midfield_passes_allowed c1GoodTable 217 40 80 =
      Except.ok n) ∧
    Frame.compute_defensive_to_midfield_passes_allowed c1GoodTable 217 40 80 =
      Except.ok 0 ∧
    Frame.compute_defensive_action_efficiency c1GoodTable 217 40 80 =
      Except.ok 0 :=
  ⟨((extractor_defaults_amended c1GoodTable 217 40 80).1 rfl rfl rfl rfl).1,
    ((extractor_defaults_amended c1GoodTable 217 40 80).2.1 (by decide) rfl rfl rfl).1,
    ((extractor_defaults_amended c1GoodTable 217 40 80).2.1 (by decide) rfl rfl rfl).2⟩

/-! ## Claim C6: bypass attempt counting -/

/-- The NaN-skipping maximum exceeds `c` exactly when some element does. -/
theorem listMaxQ_gtB (xs : List ℚ) (c : ℚ) :
    optGtB (listMaxQ xs) c = xs.any (fun v => decide (c < v)) := by
  induction xs with
  | nil => rfl
  | cons v rest ih =>
    rw [List.any_cons, ← ih]
    simp only [listMaxQ]
    cases h : listMaxQ rest with
    | none => simp [optGtB]
    | some m => simp [optGtB, lt_max_iff]

/-- Claim-side bypass test for one possession id: the possession's first event
(in table order) has a known x below 40, and some event of the possession has
a known x above 80. -/
def bypassFirstAndReach (events : List FEvent) (poss : ℤ) : Bool :=
  optLtB ((events.find? (fun e => e.possession = poss)).bind (fun e => e.x)) 40 &&
    events.any (fun e => e.possession = poss && optGtB e.x 80)

/-- An opponent possession starting at x = 10 and reaching x = 85. -/
def c6Counted : List FEvent :=
  [⟨some "Pass", some 999, some 999, 1, some 10, none, none, none, none, none, none⟩,
   ⟨some "Carry", some 999, some 999, 1, some 85, none, none, none, none, none, none⟩]

/-- An opponent possession starting at x = 50 and reaching x = 85. -/
def c6NotCounted : List FEvent :=
  [⟨some "Pass", some 999, some 999, 1, some 50, none, none, none, none, none, none⟩,
   ⟨some "Carry", some 999, some 999, 1, some 85, none, none, none, none, none, none⟩]

/-- C6: `compute_bypass_attempts_total` counts exactly the opponent
possessions whose first event has x below 40 and whose maximum reached x
exceeds 80; in particular a possession starting at x = 10 and reaching x = 85
is counted, and one starting at x = 50 and reaching x = 85 is not. -/
theorem bypass_attempts_characterization :
    (∀ (events : List FEvent) (team_id : ℤ) (midfield_x_min midfield_x_max : ℚ),
      compute_bypass_attempts_total events team_id midfield_x_min midfield_x_max =
        ((opponentPossessions events team_id).filter (bypassFirstAndReach events)).length) ∧
    compute_bypass_attempts_total c6Counted 217 40 80 = 1 ∧
    compute_bypass_attempts_total c6NotCounted 217 40 80 = 0 := by
  refine ⟨fun events team_id midfield_x_min midfield_x_max => ?_,
    by with_unfolding_all decide, by with_unfolding_all decide⟩
  unfold compute_bypass_attempts_total
  rw [List.countP_eq_length_filter]
  congr 1
  apply List.filter_congr
  intro poss hposs
  have hmem : ∃ e ∈ events, e.possession = poss := by
    unfold opponentPossessions at hposs
    rw [List.mem_dedup] at hposs
    obtain ⟨e, he, rfl⟩ := List.mem_map.1 hposs
    exact ⟨e, List.mem_of_mem_filter he, rfl⟩
  obtain ⟨e, he, hpe⟩ := hmem
  have hlen : 0 < (events.filter (fun x => x.possession = poss)).length := by
    have hin : e ∈ events.filter (fun x => x.possession = poss) :=
      List.mem_filter.2 ⟨he, by simp [hpe]⟩
    exact List.length_pos.2 (List.ne_nil_of_mem hin)
  rw [if_pos hlen]
  unfold bypassFirstAndReach
  dsimp only
  rw [List.filter_head?, listMaxQ_gtB, List.any_filterMap, List.any_filter]
  congr 2
  funext a
  cases a.x <;> simp [optGtB]

/-! ## Claim C7: two-row segmentation -/

/-- The tagged keys of a two-row table: the first row opens possession 1, the
second opens possession 2 exactly when its team (pandas `!=`) or period
differs. -/
theorem tagged_pair_keys (a b : PossEvent) (ta tb : String)
    (ha : a.possession_team_name = some ta) (hb : b.possession_team_name = some tb) :
    (tagPossIds [a, b] none).filterMap segKeyOf =
      [⟨a.match_id, 1, ta⟩,
       ⟨b.match_id,
         if pandasNeStr b.possession_team_name a.possession_team_name ||
            decide (b.period ≠ a.period) then 2 else 1, tb⟩] := by
  simp [tagPossIds, segKeyOf, ha, hb]

/-- Deduplicating a two-element list keeps one element when the two are equal
and both otherwise. -/
theorem dedup_pair_length (k1 k2 : SegKey) :
    ([k1, k2].dedup).length = if k1 = k2 then 1 else 2 := by
  by_cases h : k1 = k2
  · subst h
    simp
  · simp [List.dedup_cons_of_not_mem, h]

/-- The number of distinct segment keys of a two-row single-match table with
known possession teams: one when team and period both agree, two otherwise. -/
theorem pair_keys_dedup_length (a b : PossEvent) (ta tb : String)
    (hm : a.match_id = b.match_id)
    (ha : a.possession_team_name = some ta)
    (hb : b.possession_team_name = some tb) :
    (((tagPossIds [a, b] none).filterMap segKeyOf).dedup).length =
      if ta = tb ∧ a.period = b.period then 1 else 2 := by
  rw [tagged_pair_keys a b ta tb ha hb, dedup_pair_length]
  by_cases hc : ta = tb ∧ a.period = b.period
  · obtain ⟨hteq, hper⟩ := hc
    have hne : pandasNeStr b.possession_team_name a.possession_team_name = false := by
      simp [pandasNeStr, ha, hb, hteq]
    have hkeq : (⟨a.match_id, 1, ta⟩ : SegKey) =
        ⟨b.match_id,
          if pandasNeStr b.possession_team_name a.possession_team_name ||
             decide (b.period ≠ a.period) then 2 else 1, tb⟩ := by
      simp [SegKey.mk.injEq, hm, hteq, hne, hper]
    rw [if_pos hkeq, if_pos ⟨hteq, hper⟩]
  · rw [if_neg hc, if_neg]
    intro hkey
    apply hc
    rw [SegKey.mk.injEq] at hkey
    obtain ⟨hmm, hid, hts⟩ := hkey
    refine ⟨hts, ?_⟩
    split at hid
    · exact absurd hid (by decide)
    · rename_i hcond
      rw [Bool.or_eq_true, not_or] at hcond
      have hp := hcond.2
      simp only [decide_eq_true_eq, Decidable.not_not] at hp
      exact hp.symm

/-- C7: on a two-row event table of one match with known possession teams,
`build_possessions` yields exactly two segments when the teams differ, exactly
two segments when the teams agree but the periods differ, and exactly one
segment when neither differs. -/
theorem two_row_segmentation :
    ∀ (e1 e2 : PossEvent) (t1 t2 : String),
      e1.match_id = e2.match_id →
      e1.possession_team_name = some t1 →
      e2.possession_team_name = some t2 →
      ((t1 ≠ t2 → (build_possessions [e1, e2]).length = 2) ∧
       (t1 = t2 → e1.period ≠ e2.period → (build_possessions [e1, e2]).length = 2) ∧
       (t1 = t2 → e1.period = e2.period → (build_possessions [e1, e2]).length = 1)) := by
  intro e1 e2 t1 t2 hm h1 h2
  have hsort : sortEvents [e1, e2] =
      if eventKeyLt e2 e1 then [e2, e1] else [e1, e2] := by
    simp only [sortEvents, List.foldr_cons, List.foldr_nil, insertByKey]
  have key : (build_possessions [e1, e2]).length =
      if t1 = t2 ∧ e1.period = e2.period then 1 else 2 := by
    unfold build_possessions
    rw [List.length_map, hsort]
    by_cases hlt : eventKeyLt e2 e1
    · rw [if_pos hlt, pair_keys_dedup_length e2 e1 t2 t1 hm.symm h2 h1]
      exact if_congr ⟨fun hx => ⟨hx.1.symm, hx.2.symm⟩, fun hx => ⟨hx.1.symm, hx.2.symm⟩⟩
        rfl rfl
    · rw [if_neg hlt, pair_keys_dedup_length e1 e2 t1 t2 hm h1 h2]
  refine ⟨fun hne => ?_, fun hteq hpne => ?_, fun hteq hpe => ?_⟩
  · rw [key, if_neg]
    intro hc
    exact hne hc.1
  · rw [key, if_neg]
    intro hc
    exact hpne hc.2
  · rw [key, if_pos ⟨hteq, hpe⟩]

/-- First row of the two-row witness table: team A, period 1, t = 0. -/
def c7RowA : PossEvent := ⟨1, 1, 0, some "A", none, none, some "Pass"⟩

/-- Second row of the two-row witness table: team B, period 1, t = 1. -/
def c7RowB : PossEvent := ⟨1, 1, 1, some "B", none, none, some "Pass"⟩

/-- C7 (witness): the two-row theorem applied to a concrete table whose
second row changes the possession team, yielding two segments. -/
theorem two_row_segmentation_witness :
    (build_possessions [c7RowA, c7RowB]).length = 2 :=
  (two_row_segmentation c7RowA c7RowB "A" "B" rfl rfl rfl).1 (by decide)

/-! ## Claim C9: midfield strength index range -/

/-- Every branch of `normalize_feature` lands in [0, 1]. -/
theorem normalize_feature_mem01 (value : ℚ) (min_val max_val : Option ℚ) :
    0 ≤ normalize_feature value min_val max_val ∧
      normalize_feature value min_val max_val ≤ 1 := by
  have hdiv : 0 ≤ min (max (value / 100) 0) 1 ∧ min (max (value / 100) 0) 1 ≤ 1 :=
    ⟨le_min (le_max_right _ _) zero_le_one, min_le_right _ _⟩
  unfold normalize_feature
  rcases min_val with _ | mi <;> rcases max_val with _ | ma <;> dsimp only
  · split
    · exact hdiv
    · norm_num
  · split
    · exact hdiv
    · norm_num
  · split
    · exact hdiv
    · norm_num
  · split
    · norm_num
    · exact ⟨le_max_left 0 _, max_le zero_le_one (min_le_left 1 _)⟩

/-- The weighted combination of the strength index stays in [0, 1] when each
component does. -/
theorem weighted_index_bounds (n1 n2 n3 n4 n5 : ℚ)
    (h1 : 0 ≤ n1 ∧ n1 ≤ 1) (h2 : 0 ≤ n2 ∧ n2 ≤ 1) (h3 : 0 ≤ n3 ∧ n3 ≤ 1)
    (h4 : 0 ≤ n4 ∧ n4 ≤ 1) (h5 : 0 ≤ n5 ∧ n5 ≤ 1) :
    0 ≤ (0.25 : ℚ) * n1 + (0.25 : ℚ) * n2 + (0.20 : ℚ) * n3 + (0.20 : ℚ) * n4 +
        (0.10 : ℚ) * (1 - n5) ∧
      (0.25 : ℚ) * n1 + (0.25 : ℚ) * n2 + (0.20 : ℚ) * n3 + (0.20 : ℚ) * n4 +
        (0.10 : ℚ) * (1 - n5) ≤ 1 := by
  have e1 : (0.25 : ℚ) = 1 / 4 := by norm_num
  have e2 : (0.20 : ℚ) = 1 / 5 := by norm_num
  have e3 : (0.10 : ℚ) = 1 / 10 := by norm_num
  rw [e1, e2, e3]
  obtain ⟨h1a, h1b⟩ := h1
  obtain ⟨h2a, h2b⟩ := h2
  obtain ⟨h3a, h3b⟩ := h3
  obtain ⟨h4a, h4b⟩ := h4
  obtain ⟨h5a, h5b⟩ := h5
  constructor <;> linarith

/-- C9 (amended): the midfield strength index lies in [0, 1] for every event
table and `other_features` mapping whose `bypass_attempts_total` entry is
non-negative and at most the opponent possession count — the normalization
clamp bounds four of the five components, but the bypass-prevention component
enters unclamped, so the bound needs this extra hypothesis. -/
theorem midfield_strength_index_bounds :
    ∀ (events : List FEvent) (team_id : ℤ) (midfield_x_min midfield_x_max : ℚ)
      (other_features : OtherFeatures),
      0 ≤ other_features.bypass_attempts_total.getD 0 →
      other_features.bypass_attempts_total.getD 0 ≤
        ((opponentPossessions events team_id).length : ℚ) →
      0 ≤ compute_midfield_strength_index events team_id midfield_x_min
          midfield_x_max other_features ∧
        compute_midfield_strength_index events team_id midfield_x_min
          midfield_x_max other_features ≤ 1 := by
  intro events team_id midfield_x_min midfield_x_max other_features hb0 hb1
  simp only [compute_midfield_strength_index]
  refine weighted_index_bounds _ _ _ _ _ (normalize_feature_mem01 _ _ _)
    (normalize_feature_mem01 _ _ _) (normalize_feature_mem01 _ _ _) ?_
    (normalize_feature_mem01 _ _ _)
  split
  · rename_i hpos
    have hden : (0 : ℚ) < ((opponentPossessions events team_id).length : ℚ) := by
      exact_mod_cast hpos
    have hq1 : other_features.bypass_attempts_total.getD 0 /
        ((opponentPossessions events team_id).length : ℚ) ≤ 1 :=
      (div_le_one hden).2 hb1
    have hq0 : 0 ≤ other_features.bypass_attempts_total.getD 0 /
        ((opponentPossessions events team_id).length : ℚ) :=
      div_nonneg hb0 hden.le
    constructor <;> linarith
  · norm_num

/-- A single opponent event with no usable coordinates, giving exactly one
opponent possession. -/
def c9Event : FEvent :=
  ⟨some "Pass", some 999, some 999, 1, none, none, none, none, none, none, none⟩

/-- An `other_features` mapping claiming ten bypass attempts. -/
def c9Other : OtherFeatures := ⟨some 10, none, none, none⟩

/-- C9 (counterexample): with one opponent possession but an
`other_features` mapping reporting ten bypass attempts, the bypass-prevention
component is 1 − 10/1 = −9 and the index evaluates to −7/4, outside [0, 1]:
the claim fails for arbitrary accompanying mappings because this component is
never clamped. -/
theorem midfield_strength_index_counterexample :
    compute_midfield_strength_index [c9Event] 217 40 80 c9Other < 0 := by
  with_unfolding_all decide

/-- C9 (witness): the bounds theorem applied to a concrete event table and a
consistent mapping (one bypass attempt against one opponent possession). -/
theorem midfield_strength_index_bounds_witness :
    0 ≤ compute_midfield_strength_index [c9Event] 217 40 80 ⟨some 1, none, none, none⟩ ∧
      compute_midfield_strength_index [c9Event] 217 40 80 ⟨some 1, none, none, none⟩ ≤ 1 :=
  midfield_strength_index_bounds [c9Event] 217 40 80 ⟨some 1, none, none, none⟩
    (by with_unfolding_all decide) (by with_unfolding_all decide)

/-! ## Claim C5: segment start/end coordinates -/

/-- The first hit of `findSome?` is the value of the first element whose image
is non-null. -/
theorem findSome?_eq_find?_bind {α β : Type} (l : List α) (f : α → Option β) :
    l.findSome? f = (l.find? (fun a => (f a).isSome)).bind f := by
  induction l with
  | nil => rfl
  | cons a l ih =>
    rw [List.findSome?_cons]
    cases h : f a with
    | some b => simp [List.find?, h]
    | none => simp [List.find?, h, ih]

/-- `GroupBy.first` on a column: the head of the non-null values is the value
of the first row whose cell is non-null. -/
theorem head?_filterMap_find {α β : Type} (l : List α) (f : α → Option β) :
    (l.filterMap f).head? = (l.find? (fun a => (f a).isSome)).bind f := by
  rw [List.filterMap_head?, findSome?_eq_find?_bind]

/-- `GroupBy.last` on a column: the last of the non-null values is the value
of the last row whose cell is non-null. -/
theorem getLast?_filterMap_find {α β : Type} (l : List α) (f : α → Option β) :
    (l.filterMap f).getLast? = (l.reverse.find? (fun a => (f a).isSome)).bind f := by
  rw [List.filterMap_getLast?, findSome?_eq_find?_bind]

/-- C5 (amended): for every segment row produced by `build_possessions`,
`start_x`/`start_y` are the x and y values of the FIRST event of the group
having a non-null value in that column (independently per column), and
`end_x`/`end_y` those of the LAST such event — pandas `GroupBy.first`/`last`
skip nulls — and a group with no located events yields null start/end
coordinates, never zero. -/
theorem segment_endpoint_coordinates :
    ∀ (events : List PossEvent) (r : PossRow), r ∈ build_possessions events →
      (r.start_x = ((groupRowsOf events ⟨r.match_id, r.poss_id, r.team_name⟩).find?
          (fun e => e.x.isSome)).bind (fun e => e.x) ∧
       r.start_y = ((groupRowsOf events ⟨r.match_id, r.poss_id, r.team_name⟩).find?
          (fun e => e.y.isSome)).bind (fun e => e.y) ∧
       r.end_x = (((groupRowsOf events ⟨r.match_id, r.poss_id, r.team_name⟩).reverse).find?
          (fun e => e.x.isSome)).bind (fun e => e.x) ∧
       r.end_y = (((groupRowsOf events ⟨r.match_id, r.poss_id, r.team_name⟩).reverse).find?
          (fun e => e.y.isSome)).bind (fun e => e.y)) ∧
      ((∀ e ∈ groupRowsOf events ⟨r.match_id, r.poss_id, r.team_name⟩,
          e.x = none ∧ e.y = none) →
        r.start_x = none ∧ r.start_y = none ∧ r.end_x = none ∧ r.end_y = none) := by
  intro events r hr
  unfold build_possessions at hr
  obtain ⟨k, hk, rfl⟩ := List.mem_map.1 hr
  have hkey : (⟨(aggregateGroup k (groupRowsOf events k)).match_id,
      (aggregateGroup k (groupRowsOf events k)).poss_id,
      (aggregateGroup k (groupRowsOf events k)).team_name⟩ : SegKey) = k := rfl
  rw [hkey]
  constructor
  · refine ⟨?_, ?_, ?_, ?_⟩
    · exact head?_filterMap_find (groupRowsOf events k) (fun e => e.x)
    · exact head?_filterMap_find (groupRowsOf events k) (fun e => e.y)
    · exact getLast?_filterMap_find (groupRowsOf events k) (fun e => e.x)
    · exact getLast?_filterMap_find (groupRowsOf events k) (fun e => e.y)
  · intro hnone
    have hx : (groupRowsOf events k).filterMap (fun e => e.x) = [] :=
      List.filterMap_eq_nil_iff.2 (fun e he => (hnone e he).1)
    have hy : (groupRowsOf events k).filterMap (fun e => e.y) = [] :=
      List.filterMap_eq_nil_iff.2 (fun e he => (hnone e he).2)
    have hsx : (aggregateGroup k (groupRowsOf events k)).start_x = none := by
      show ((groupRowsOf events k).filterMap (fun e => e.x)).head? = none
      rw [hx]
      rfl
    have hsy : (aggregateGroup k (groupRowsOf events k)).start_y = none := by
      show ((groupRowsOf events k).filterMap (fun e => e.y)).head? = none
      rw [hy]
      rfl
    have hex : (aggregateGroup k (groupRowsOf events k)).end_x = none := by
      show ((groupRowsOf events k).filterMap (fun e => e.x)).getLast? = none
      rw [hx]
      rfl
    have hey : (aggregateGroup k (groupRowsOf events k)).end_y = none := by
      show ((groupRowsOf events k).filterMap (fun e => e.y)).getLast? = none
      rw [hy]
      rfl
    exact ⟨hsx, hsy, hex, hey⟩

/-- The two-row witness table: both rows in the same possession, the first
with null coordinates, the second located at (50, 60). -/
def c5Events : List PossEvent :=
  [⟨1, 1, 0, some "A", none, none, some "Pass"⟩,
   ⟨1, 1, 1, some "A", some 50, some 60, some "Carry"⟩]

/-- The single segment built from `c5Events`. -/
def c5Row : PossRow := ⟨1, 1, "A", 0, 1, some 50, some 60, some 50, some 60, 2⟩

/-- C5 (counterexample): in the unique segment of `c5Events` the temporally
first event has null x, yet `start_x` is 50, taken from the second event:
`GroupBy.first` skips nulls, so start coordinates are NOT those of the
temporally-first event when that event is unlocated. -/
theorem segment_endpoint_counterexample :
    (build_possessions c5Events).map (fun r => r.start_x) = [some (50 : ℚ)] ∧
      (sortEvents c5Events).map (fun e => e.x) = [none, some (50 : ℚ)] := by
  exact ⟨by with_unfolding_all decide, by with_unfolding_all decide⟩

/-- C5 (witness): the amended theorem applied to the concrete segment of
`c5Events`. -/
theorem segment_endpoint_coordinates_witness :
    (c5Row.start_x = ((groupRowsOf c5Events ⟨c5Row.match_id, c5Row.poss_id,
        c5Row.team_name⟩).find? (fun e => e.x.isSome)).bind (fun e => e.x) ∧
     c5Row.start_y = ((groupRowsOf c5Events ⟨c5Row.match_id, c5Row.poss_id,
        c5Row.team_name⟩).find? (fun e => e.y.isSome)).bind (fun e => e.y) ∧
     c5Row.end_x = (((groupRowsOf c5Events ⟨c5Row.match_id, c5Row.poss_id,
        c5Row.team_name⟩).reverse).find? (fun e => e.x.isSome)).bind (fun e => e.x) ∧
     c5Row.end_y = (((groupRowsOf c5Events ⟨c5Row.match_id, c5Row.poss_id,
        c5Row.team_name⟩).reverse).find? (fun e => e.y.isSome)).bind (fun e => e.y)) ∧
    ((∀ e ∈ groupRowsOf c5Events ⟨c5Row.match_id, c5Row.poss_id, c5Row.team_name⟩,
        e.x = none ∧ e.y = none) →
      c5Row.start_x = none ∧ c5Row.start_y = none ∧ c5Row.end_x = none ∧
        c5Row.end_y = none) :=
  segment_endpoint_coordinates c5Events c5Row (by with_unfolding_all decide)

/-! ## Claim C2: the partition invariant -/

/-- Tagging preserves the rows: projecting the tags away returns the input
list unchanged. -/
theorem tag_map_fst :
    ∀ (es : List PossEvent) (acc : Option (PossEvent × ℕ)),
      (tagPossIds es acc).map Prod.fst = es := by
  intro es
  induction es with
  | nil => intro acc; cases acc <;> rfl
  | cons e rest ih =>
    intro acc
    cases acc with
    | none => simp [tagPossIds, ih]
    | some p => simp [tagPossIds, ih]

/-- Stable insertion permutes to consing the element in front. -/
theorem insertByKey_perm (e : PossEvent) (l : List PossEvent) :
    List.Perm (insertByKey e l) (e :: l) := by
  induction l with
  | nil => exact List.Perm.refl _
  | cons f rest ih =>
    unfold insertByKey
    split
    · exact (ih.cons f).trans (List.Perm.swap e f rest)
    · exact List.Perm.refl _

/-- The sort is a permutation of its input. -/
theorem sortEvents_perm (events : List PossEvent) :
    List.Perm (sortEvents events) events := by
  induction events with
  | nil => exact List.Perm.refl _
  | cons e rest ih =>
    have h1 : sortEvents (e :: rest) = insertByKey e (sortEvents rest) := rfl
    rw [h1]
    exact (insertByKey_perm e (sortEvents rest)).trans (ih.cons e)

/-- A tagged row of the sorted table projects to a row of the input table. -/
theorem tagged_row_mem {events : List PossEvent} {te : PossEvent × ℕ}
    (hte : te ∈ tagPossIds (sortEvents events) none) : te.1 ∈ events := by
  have h1 : te.1 ∈ (tagPossIds (sortEvents events) none).map Prod.fst :=
    List.mem_map_of_mem Prod.fst hte
  rw [tag_map_fst] at h1
  exact ((sortEvents_perm events).mem_iff).1 h1

/-- Boolean equality from a derived `DecidableEq` agrees with `decide`. -/
theorem beq_eq_decideEq {α : Type} [BEq α] [LawfulBEq α] [DecidableEq α] (a b : α) :
    (a == b) = decide (a = b) := by
  by_cases h : a = b
  · subst h
    simp
  · rw [Bool.eq_iff_iff]
    simp [h]

/-- C2 (amended): when every event has a non-null possession team and a
non-null `type_name`, the segments of `build_possessions` partition each
match's events exactly: the `n_events` counts summed over the segments of a
match equal that match's event-row count.  (A null possession team drops the
row from the groupby, and a null `type_name` is skipped by the `count`
aggregation, which is what the counterexample exhibits.) -/
theorem possession_partition_amended :
    ∀ (events : List PossEvent) (m : ℤ),
      (∀ e ∈ events, e.possession_team_name.isSome) →
      (∀ e ∈ events, e.type_name.isSome) →
      (((build_possessions events).filter (fun r => r.match_id = m)).map
        (fun r => r.n_events)).sum =
        (events.filter (fun e => e.match_id = m)).length := by
  intro events m h1 h2
  unfold build_possessions
  rw [List.filter_map, List.map_map]
  have hfc : (((tagPossIds (sortEvents events) none).filterMap segKeyOf).dedup).filter
      ((fun r => decide (r.match_id = m)) ∘ fun k =>
        aggregateGroup k (groupRowsOf events k)) =
      (((tagPossIds (sortEvents events) none).filterMap segKeyOf).dedup).filter
        (fun k => decide (k.match_id = m)) :=
    List.filter_congr (fun a _ => rfl)
  rw [hfc]
  have hmc : ∀ k ∈ (((tagPossIds (sortEvents events) none).filterMap segKeyOf).dedup).filter
      (fun k => decide (k.match_id = m)),
      ((fun r => r.n_events) ∘ fun k => aggregateGroup k (groupRowsOf events k)) k =
        ((tagPossIds (sortEvents events) none).filterMap segKeyOf).count k := by
    intro k hk
    show ((groupRowsOf events k).filterMap (fun e => e.type_name)).length =
      ((tagPossIds (sortEvents events) none).filterMap segKeyOf).count k
    have hrows : ∀ e ∈ groupRowsOf events k, (e.type_name).isSome = true := by
      intro e he
      unfold groupRowsOf at he
      obtain ⟨te, hte, rfl⟩ := List.mem_map.1 he
      exact h2 te.1 (tagged_row_mem (List.mem_of_mem_filter hte))
    have hlen1 : ((groupRowsOf events k).filterMap (fun e => e.type_name)).length =
        (groupRowsOf events k).length := by
      rw [List.length_filterMap_eq_countP, List.countP_eq_length_filter,
        List.filter_eq_self.2 hrows]
    rw [hlen1]
    unfold groupRowsOf
    rw [List.length_map, ← List.countP_eq_length_filter, List.count_filterMap]
    apply List.countP_congr
    intro te hte
    rw [beq_eq_decideEq]
  rw [List.map_congr_left hmc, List.sum_map_count_dedup_filter_eq_countP,
    ← List.countP_eq_length_filter, List.countP_filterMap]
  have hcp : (tagPossIds (sortEvents events) none).countP
      (fun a => ((segKeyOf a).map (fun k => decide (k.match_id = m))).getD false) =
      (tagPossIds (sortEvents events) none).countP
        (fun a => decide (a.1.match_id = m)) := by
    apply List.countP_congr
    intro a ha
    obtain ⟨t, ht⟩ := Option.isSome_iff_exists.1 (h1 a.1 (tagged_row_mem ha))
    simp [segKeyOf, ht]
  rw [hcp]
  have hmap : (tagPossIds (sortEvents events) none).countP
      (fun a => decide (a.1.match_id = m)) =
      ((tagPossIds (sortEvents events) none).map Prod.fst).countP
        (fun e => decide (e.match_id = m)) := by
    rw [List.countP_map]
    rfl
  rw [hmap, tag_map_fst]
  exact (sortEvents_perm events).countP_eq _

/-- A one-row table whose possession team is null. -/
def c2Event : PossEvent := ⟨1, 1, 0, none, some 50, some 40, some "Pass"⟩

/-- C2 (counterexample): a row with a null possession team is dropped by the
groupby, so `build_possessions` emits NO segment for it: the match has one
event row but the summed `n_events` over its segments is zero — the partition
claim fails as stated for arbitrary tables. -/
theorem possession_partition_counterexample :
    build_possessions [c2Event] = [] ∧
      ([c2Event].filter (fun e => e.match_id = 1)).length = 1 := by
  exact ⟨by with_unfolding_all decide, by with_unfolding_all decide⟩

/-- A three-row, two-match witness table with non-null teams and types. -/
def c2Witness : List PossEvent :=
  [⟨1, 1, 0, some "A", some 1, some 2, some "Pass"⟩,
   ⟨1, 1, 1, some "B", none, none, some "Carry"⟩,
   ⟨2, 1, 0, some "A", some 3, some 4, some "Pass"⟩]

/-- C2 (witness): the amended partition theorem applied to a concrete
two-match table, for match 1. -/
theorem possession_partition_amended_witness :
    (((build_possessions c2Witness).filter (fun r => r.match_id = 1)).map
      (fun r => r.n_events)).sum =
      (c2Witness.filter (fun e => e.match_id = 1)).length :=
  possession_partition_amended c2Witness 1 (by decide) (by decide)

end DMBypass
